/-
Verification of the slack-mcp-server core: CSRF state registry
(pkg/server/oauth_handler.go), OAuth manager (pkg/oauth/manager.go),
in-memory token storage (pkg/oauth/storage_memory.go), authentication
middleware (pkg/server/auth/oauth_middleware.go) and the channel
listing/pagination engine (pkg/handler/channels.go), shallowly embedded
in Lean 4.

Embedding conventions:
- Go `int` is modelled as `Int`; Go `time.Time` as `Nat` (an instant on a
  discrete time line); Go `[]byte` as `List Nat` (each entry < 256).
- Go strings are byte strings; all data relevant to the claims is ASCII,
  so a string's bytes are modelled as the code points of its characters.
- Network calls (token exchange POST, auth.test) are modelled by passing
  the upstream's response as an explicit argument.
- `sort.Slice` is not a stable sort; it is modelled by `List.insertionSort`,
  which agrees with any correct sort whenever the keys are distinct.
-/
import Mathlib

set_option maxRecDepth 8192

namespace SlackMCP

/-! ## Base64 (Go `encoding/base64` StdEncoding)

`paginateChannels` encodes the id of the last returned channel with
`base64.StdEncoding.EncodeToString` and decodes incoming cursors with
`base64.StdEncoding.DecodeString`.  The Go decoder ignores `\r` and `\n`,
requires the (filtered) input length to be a multiple of 4, allows `=`
padding only in the final quantum, and (in its default, non-strict mode)
does not reject non-zero trailing bits. -/

def b64Alphabet : List Char :=
  "ABCDEFGHIJKLMNOPQRSTUVWXYZabcdefghijklmnopqrstuvwxyz0123456789+/".toList

/-- The sextet value of a base64 alphabet character, `none` for any other
character. -/
def b64Index (c : Char) : Option Nat :=
  b64Alphabet.indexOf? c

def b64Sextet (n : Nat) : Char :=
  b64Alphabet.getD n 'A'

/-- Encode a byte list, three bytes to a quantum of four characters, with
`=` padding in the final quantum. -/
def b64EncodeBytes : List Nat → List Char
  | [] => []
  | [a] => [b64Sextet (a / 4), b64Sextet (a % 4 * 16), '=', '=']
  | [a, b] => [b64Sextet (a / 4), b64Sextet (a % 4 * 16 + b / 16),
      b64Sextet (b % 16 * 4), '=']
  | a :: b :: c :: rest =>
      b64Sextet (a / 4) :: b64Sextet (a % 4 * 16 + b / 16) ::
        b64Sextet (b % 16 * 4 + c / 64) :: b64Sextet (c % 64) ::
        b64EncodeBytes rest

/-- Decode a list of four-character quanta; padding is legal only in the
last quantum. -/
def b64DecodeQuanta : List Char → Option (List Nat)
  | [] => some []
  | a :: b :: c :: d :: rest =>
      match b64Index a, b64Index b with
      | some x, some y =>
          if c = '=' then
            if d = '=' ∧ rest = [] then some [x * 4 + y / 16] else none
          else
            match b64Index c with
            | some z =>
                if d = '=' then
                  if rest = [] then some [x * 4 + y / 16, y % 16 * 16 + z / 4]
                  else none
                else
                  match b64Index d with
                  | some w =>
                      (b64DecodeQuanta rest).map
                        (fun bs => (x * 4 + y / 16) :: (y % 16 * 16 + z / 4) ::
                          (z % 4 * 64 + w) :: bs)
                  | none => none
            | none => none
      | _, _ => none
  | _ => none

/-- `base64.StdEncoding.DecodeString`: drop `\r`/`\n`, then decode whole
quanta; `none` models a `CorruptInputError`. -/
def b64DecodeString (s : String) : Option (List Nat) :=
  b64DecodeQuanta (s.toList.filter (fun c => ¬(c = '\r' ∨ c = '\n')))

/-- The bytes of an (ASCII) Go string. -/
def strBytes (s : String) : List Nat :=
  s.toList.map Char.toNat

/-- Go's byte-wise lexicographic `<` on strings, at the character level
(on ASCII this coincides with the code-point order Lean's `String.lt`
uses). -/
def lexLt : List Char → List Char → Bool
  | [], [] => false
  | [], _ :: _ => true
  | _ :: _, [] => false
  | x :: xs, y :: ys =>
      x.toNat < y.toNat || (x.toNat = y.toNat && lexLt xs ys)

/-- Go string comparison `a < b`. -/
def strLt (a b : String) : Bool :=
  lexLt a.toList b.toList

/-- A Go string rebuilt from (ASCII) bytes. -/
def bytesStr (bs : List Nat) : String :=
  String.mk (bs.map Char.ofNat)

/-- `base64.StdEncoding.EncodeToString([]byte(s))`. -/
def b64EncodeString (s : String) : String :=
  String.mk (b64EncodeBytes (strBytes s))

/-! ## Channel data model (pkg/provider usage in pkg/handler/channels.go) -/

/-- `provider.Channel`, with the fields `channels.go` reads. -/
structure ProvChannel where
  ID : String
  Name : String
  Topic : String
  Purpose : String
  MemberCount : Int
  IsPrivate : Bool
  IsIM : Bool
  IsMpIM : Bool
  deriving DecidableEq, Repr, Inhabited

/-- `handler.Channel`, the row marshalled into the CSV reply. -/
structure OutChannel where
  ID : String
  Name : String
  Topic : String
  Purpose : String
  MemberCount : Int
  Cursor : String
  deriving DecidableEq, Repr, Inhabited

/-! ## filterChannelsByTypes (channels.go:253-297)

The Go loop ranges over a map; the iteration order is immaterial to the
claims because `paginateChannels` re-sorts, so the map's values are taken
here as a list.  Each channel is appended once per requested type it
matches, exactly as the four independent `if` statements do. -/

def filterChannelsByTypes (channels : List ProvChannel) (types : List String) :
    List ProvChannel :=
  channels.flatMap fun ch =>
    (if "public_channel" ∈ types ∧ ¬ch.IsPrivate ∧ ¬ch.IsIM ∧ ¬ch.IsMpIM
      then [ch] else []) ++
    (if "private_channel" ∈ types ∧ ch.IsPrivate ∧ ¬ch.IsIM ∧ ¬ch.IsMpIM
      then [ch] else []) ++
    (if "im" ∈ types ∧ ch.IsIM then [ch] else []) ++
    (if "mpim" ∈ types ∧ ch.IsMpIM then [ch] else [])

/-! ## paginateChannels (channels.go:299-354) -/

/-- The comparison `channels[i].ID < channels[j].ID` fed to `sort.Slice`. -/
def chanIdLt (a b : ProvChannel) : Prop := strLt a.ID b.ID = true

instance : DecidableRel chanIdLt := fun a b => by
  unfold chanIdLt; infer_instance

def paginateChannels (channels : List ProvChannel) (cursor : String)
    (limit : Int) : List ProvChannel × String :=
  let sorted := List.insertionSort chanIdLt channels
  let startIndex : Nat :=
    if cursor = "" then 0
    else
      match b64DecodeString cursor with
      | some decoded =>
          let lastID := bytesStr decoded
          match sorted.findIdx? (fun ch => strLt lastID ch.ID) with
          | some i => i
          | none => 0
      | none => 0
  let endIndex : Int := min ((startIndex : Int) + limit) (sorted.length : Int)
  let paged := (sorted.drop startIndex).take (endIndex - (startIndex : Int)).toNat
  let nextCursor :=
    if endIndex < (sorted.length : Int) then
      b64EncodeString ((sorted.getD (endIndex - 1).toNat default).ID)
    else ""
  (paged, nextCursor)

/-! ## ChannelsHandler (channels.go:141-251)

`channelsList` is the pure core of `ChannelsHandler.ChannelsHandler` from
the point where the validated channel-type list is in hand (line 184):
limit normalisation, type filtering, pagination, the optional
popularity display sort, and attaching the next cursor to the last row.
The CSV marshalling and logging around it are I/O shims. -/

/-- The comparison `channelList[i].MemberCount > channelList[j].MemberCount`
fed to `sort.Slice` for the popularity display sort (descending). -/
def popGt (a b : OutChannel) : Prop := b.MemberCount < a.MemberCount

instance : DecidableRel popGt := fun a b => by
  unfold popGt; infer_instance

/-- A `provider.Channel` copied into a `handler.Channel` row
(channels.go:219-227); the `Cursor` column starts empty. -/
def toOutChannel (c : ProvChannel) : OutChannel :=
  ⟨c.ID, c.Name, c.Topic, c.Purpose, c.MemberCount, ""⟩

/-- `channelList[len(channelList)-1].Cursor = nextcur` (channels.go:240):
set the `Cursor` field of the last row. -/
def setLastCursor : List OutChannel → String → List OutChannel
  | [], _ => []
  | [a], cur => [{ a with Cursor := cur }]
  | a :: b :: t, cur => a :: setLastCursor (b :: t) cur

/-- Limit normalisation (channels.go:186-193): `0` becomes the default
100, anything above 999 is capped to 999. -/
def normLimit (limit : Int) : Int :=
  let limit := if limit = 0 then 100 else limit
  if limit > 999 then 999 else limit

def channelsList (allChannels : List ProvChannel) (channelTypes : List String)
    (sortType cursor : String) (limit : Int) : List OutChannel × String :=
  let channelTypes := if channelTypes = []
    then ["public_channel", "private_channel"] else channelTypes
  let limit := normLimit limit
  let channels := filterChannelsByTypes allChannels channelTypes
  let pr := paginateChannels channels cursor limit
  let channelList := pr.1.map toOutChannel
  let channelList := if sortType = "popularity"
    then List.insertionSort popGt channelList else channelList
  let channelList := if channelList ≠ [] ∧ pr.2 ≠ ""
    then setLastCursor channelList pr.2 else channelList
  (channelList, pr.2)

/-- A 250-channel collection: channels `000`-`149` are public, channels
`150`-`249` are private; the member count of channel `i` is `i`.  Ids are
three decimal digits, so Go's byte-wise id order agrees with the numeric
order. -/
def pad3 (n : Nat) : String :=
  String.mk [Char.ofNat (48 + n / 100 % 10), Char.ofNat (48 + n / 10 % 10),
    Char.ofNat (48 + n % 10)]

def mkChan (i : Nat) : ProvChannel :=
  { ID := pad3 i
    Name := "chan" ++ pad3 i
    Topic := ""
    Purpose := ""
    MemberCount := (i : Int)
    IsPrivate := decide (150 ≤ i)
    IsIM := false
    IsMpIM := false }

def coll250 : List ProvChannel :=
  (List.range 250).map mkChan

/-! ## CSRF state registry (pkg/server/oauth_handler.go)

`OAuthHandler.states : map[string]time.Time` maps an issued state token
to its expiry instant. -/

def StateRegistry := String → Option Nat

/-- The state-verification step of `HandleCallback`
(oauth_handler.go:69-82): look the token up; fail if it is absent or if
`time.Now().After(expiry)` (strict) holds, leaving the registry as it
was; only on success delete the entry and proceed.  Returns the
verification outcome together with the resulting registry. -/
def consumeState (states : StateRegistry) (token : String) (now : Nat) :
    Bool × StateRegistry :=
  match states token with
  | none => (false, states)
  | some expiry =>
      if expiry < now then (false, states)
      else (true, fun k => if k = token then none else states k)

/-- A registry holding one state token `s` whose expiry instant 5 has
already passed at instant 10. -/
def expiredRegistry : StateRegistry :=
  fun k => if k = "s" then some 5 else none

/-- One tick of the background sweep `cleanupStates`
(oauth_handler.go:123-137): delete every entry whose expiry has passed. -/
def sweepStates (states : StateRegistry) (now : Nat) : StateRegistry :=
  fun k =>
    match states k with
    | some expiry => if expiry < now then none else some expiry
    | none => none

/-! ## OAuth manager (pkg/oauth/manager.go) -/

/-- `oauth.TokenResponse`. `ExpiresAt` is an instant on the discrete
time line. -/
structure TokenResponse where
  AccessToken : String
  BotToken : String
  UserID : String
  TeamID : String
  BotUserID : String
  ExpiresAt : Nat
  deriving DecidableEq, Repr, Inhabited

/-- `oauth.TokenInfo`. -/
structure TokenInfo where
  UserID : String
  TeamID : String
  deriving DecidableEq, Repr, Inhabited

/-- `oauth.MemoryStorage` (storage_memory.go): a map from user id to
token record.  `Store` replaces wholesale; `Get` fails when absent. -/
def Storage := String → Option TokenResponse

def Storage.store (s : Storage) (userID : String) (tok : TokenResponse) :
    Storage :=
  fun k => if k = userID then some tok else s k

/-- `MemoryStorage.Get`: the record, or the `token not found` error. -/
def Storage.get (s : Storage) (userID : String) : Except String TokenResponse :=
  match s userID with
  | some tok => Except.ok tok
  | none => Except.error ("token not found for user " ++ userID)

/-- The decoded JSON body of the upstream `oauth.v2.access` response, as
destructured by `Manager.HandleCallback` (manager.go:94-107). -/
structure SlackOAuthResponse where
  OK : Bool
  Error : String
  AccessToken : String
  AuthedUserID : String
  AuthedUserAccessToken : String
  BotUserID : String
  TeamID : String
  TeamName : String
  deriving DecidableEq, Repr, Inhabited

/-- `Manager.HandleCallback` (manager.go:80-139), with the network POST
replaced by its outcome `resp` (`Except.error` models a transport or
JSON-decoding failure) and the wall clock by `now`.  Returns the
manager's result together with the storage state after the call. -/
def handleCallbackExchange (resp : Except String SlackOAuthResponse)
    (st : Storage) (now : Nat) : Except String TokenResponse × Storage :=
  match resp with
  | Except.error e => (Except.error e, st)
  | Except.ok result =>
      if ¬result.OK then
        (Except.error ("slack error: " ++ result.Error), st)
      else
        let token : TokenResponse :=
          { AccessToken := result.AuthedUserAccessToken
            BotToken := result.AccessToken
            UserID := result.AuthedUserID
            TeamID := result.TeamID
            BotUserID := result.BotUserID
            ExpiresAt := now + 365 * 24 * 60 * 60 }
        (Except.ok token, st.store token.UserID token)

/-! ## GetAuthURL (manager.go:34-77)

`url.Values.Encode` in Go sorts the keys, percent-escapes key and value
with `url.QueryEscape` (unreserved bytes `A-Z a-z 0-9 - _ . ~` kept,
space becomes `+`, every other byte becomes `%XX` with upper-case hex)
and joins `key=value` pairs with `&`. -/

def isUnreservedByte (b : Nat) : Bool :=
  (65 ≤ b ∧ b ≤ 90) ∨ (97 ≤ b ∧ b ≤ 122) ∨ (48 ≤ b ∧ b ≤ 57) ∨
    b = 45 ∨ b = 95 ∨ b = 46 ∨ b = 126

def hexUpper (n : Nat) : Char :=
  "0123456789ABCDEF".toList.getD n '0'

/-- Go `url.QueryEscape` on an ASCII string. -/
def queryEscape (s : String) : String :=
  String.mk ((strBytes s).flatMap fun b =>
    if isUnreservedByte b then [Char.ofNat b]
    else if b = 32 then ['+']
    else ['%', hexUpper (b / 16), hexUpper (b % 16)])

/-- The key order of `url.Values.Encode`: ascending by key. -/
def keyLe (a b : String × String) : Prop := strLt b.1 a.1 = false

instance : DecidableRel keyLe := fun a b => by
  unfold keyLe; infer_instance

/-- Go `url.Values.Encode` for single-valued keys: sort by key, escape,
join with `&`. -/
def urlValuesEncode (params : List (String × String)) : String :=
  String.intercalate "&"
    ((List.insertionSort keyLe params).map
      (fun p => queryEscape p.1 ++ "=" ++ queryEscape p.2))

/-- The hard-coded user token scopes (manager.go:36-50). -/
def userScopes : List String :=
  ["channels:history", "channels:read", "groups:history", "groups:read",
   "im:history", "im:read", "im:write", "mpim:history", "mpim:read",
   "mpim:write", "users:read", "chat:write", "search:read"]

/-- The hard-coded bot token scopes (manager.go:53-66). -/
def botScopes : List String :=
  ["channels:history", "channels:read", "groups:history", "groups:read",
   "im:history", "im:read", "im:write", "mpim:history", "mpim:read",
   "mpim:write", "users:read", "chat:write"]

/-- `Manager.GetAuthURL` (manager.go:34-77): the authorization URL built
from the configured client id and redirect URI and the caller's state. -/
def getAuthURL (clientID redirectURI state : String) : String :=
  let params : List (String × String) :=
    [("client_id", clientID),
     ("scope", String.intercalate "," botScopes),
     ("user_scope", String.intercalate "," userScopes),
     ("redirect_uri", redirectURI),
     ("state", state)]
  "https://slack.com/oauth/v2/authorize?" ++ urlValuesEncode params

/-! ## Authentication middleware (pkg/server/auth) -/

/-- `auth.UserContext` (context.go:9-15). -/
structure UserContext where
  UserID : String
  TeamID : String
  AccessToken : String
  BotToken : String
  BotUserID : String
  deriving DecidableEq, Repr, Inhabited

/-- `strings.TrimPrefix(token, "Bearer ")`. -/
def stripBearer (token : String) : String :=
  match token.toList with
  | 'B' :: 'e' :: 'a' :: 'r' :: 'e' :: 'r' :: ' ' :: rest => String.mk rest
  | _ => token

/-- The identity-resolution core of `OAuthMiddleware`
(oauth_middleware.go:17-56): extract the token from the request context,
strip the `Bearer ` scheme, validate it upstream, look up the stored
record (falling back to a minimal record built from the validated
identity and the presented token when the lookup fails), and build the
`UserContext` attached to the request.  The upstream `auth.test` call is
modelled by `validate` and the storage lookup by `getStored`; invoking
the wrapped handler with the attached context is outside the model. -/
def oauthMiddlewareIdentity (validate : String → Except String TokenInfo)
    (getStored : String → Except String TokenResponse)
    (ctxToken : Option String) : Except String UserContext :=
  match ctxToken with
  | none => Except.error "missing authentication token"
  | some token =>
      let token := stripBearer token
      match validate token with
      | Except.error e =>
          Except.error ("invalid authentication token: " ++ e)
      | Except.ok tokenInfo =>
          let storedToken : TokenResponse :=
            match getStored tokenInfo.UserID with
            | Except.ok st => st
            | Except.error _ =>
                { AccessToken := token
                  BotToken := ""
                  UserID := tokenInfo.UserID
                  TeamID := tokenInfo.TeamID
                  BotUserID := ""
                  ExpiresAt := 0 }
          Except.ok
            { UserID := tokenInfo.UserID
              TeamID := tokenInfo.TeamID
              AccessToken := token
              BotToken := storedToken.BotToken
              BotUserID := storedToken.BotUserID }

/-! ## Theorems -/

/-- Setting the `Cursor` field of the last row changes no row's id. -/
theorem setLastCursor_map_id : ∀ (l : List OutChannel) (cur : String),
    (setLastCursor l cur).map OutChannel.ID = l.map OutChannel.ID
  | [], _ => rfl
  | [_], _ => rfl
  | a :: b :: t, cur => by
      simp [setLastCursor, setLastCursor_map_id (b :: t) cur]

/-- Setting the `Cursor` field of the last row preserves the length. -/
theorem setLastCursor_length : ∀ (l : List OutChannel) (cur : String),
    (setLastCursor l cur).length = l.length
  | [], _ => rfl
  | [_], _ => rfl
  | a :: b :: t, cur => by
      simp [setLastCursor, setLastCursor_length (b :: t) cur]

/-- The slice `channels[startIndex:endIndex]` with
`endIndex = min(startIndex+limit, len)` holds at most `limit` elements. -/
theorem take_slice_length_le (l : List ProvChannel) (s : Nat) (limit : Int) :
    ((l.drop s).take
      (min ((s : Int) + limit) (l.length : Int) - (s : Int)).toNat).length ≤
      limit.toNat := by
  rw [List.length_take]
  omega

/-- A returned page never holds more than `limit` elements. -/
theorem paginate_fst_length_le (channels : List ProvChannel) (cursor : String)
    (limit : Int) :
    (paginateChannels channels cursor limit).1.length ≤ limit.toNat := by
  unfold paginateChannels
  exact take_slice_length_le _ _ _

/-- Claim C1, as the spec states it, is false on the code: at instant 10
the registry `expiredRegistry` still holds state token `s`, expired at
instant 5; the callback verification fails, and the failed verification
leaves the entry in place (`HandleCallback` returns before the delete),
so the entry is not "removed regardless of outcome". -/
theorem consumeState_expired_not_removed :
    (consumeState expiredRegistry "s" 10).1 = false ∧
    (consumeState expiredRegistry "s" 10).2 "s" = some 5 :=
  ⟨rfl, rfl⟩

/-- Claim C1 (amended): the callback verification checks presence and
non-expiry and removes the entry exactly when that check succeeds; a
failed verification leaves the registry unchanged — in particular a
present-but-expired entry survives the failed verification and is removed
by the sweep instead — and a second verification of the same token at the
same or any later instant still always returns false. -/
theorem consumeState_single_use (states : StateRegistry) (token : String)
    (now now' : Nat) (h : now ≤ now') :
    ((consumeState states token now).1 = true →
      (consumeState states token now).2 token = none)
    ∧ ((consumeState states token now).1 = false →
      (consumeState states token now).2 = states)
    ∧ (consumeState (consumeState states token now).2 token now').1 = false
    ∧ (∀ e, states token = some e → e < now →
        (consumeState states token now).2 token = some e ∧
        sweepStates states now token = none) := by
  cases hs : states token with
  | none => simp [consumeState, hs]
  | some e =>
      by_cases hlt : e < now
      · have hlt' : e < now' := lt_of_lt_of_le hlt h
        simp [consumeState, sweepStates, hs, hlt, hlt']
      · simp [consumeState, sweepStates, hs, hlt]
        omega

/-- Instantiation of `consumeState_single_use` at the concrete expired
registry: the failed verification leaves the registry unchanged, a second
verification one instant later still fails, and the sweep does remove the
expired entry. -/
theorem consumeState_single_use_inst :
    (consumeState expiredRegistry "s" 10).2 = expiredRegistry ∧
    (consumeState (consumeState expiredRegistry "s" 10).2 "s" 11).1 = false ∧
    sweepStates expiredRegistry 10 "s" = none := by
  have h := consumeState_single_use expiredRegistry "s" 10 11 (by decide)
  exact ⟨h.2.1 rfl, h.2.2.1, (h.2.2.2 5 rfl (by decide)).2⟩

/-- The row post-processing of `ChannelsHandler` — copying a page into
rows, optionally display-sorting it, and attaching the cursor to the last
row — returns as many rows as the page has channels. -/
theorem channelsRows_length (page : List ProvChannel) (nextcur sortType : String) :
    (if (if sortType = "popularity"
          then List.insertionSort popGt (page.map toOutChannel)
          else page.map toOutChannel) ≠ [] ∧ nextcur ≠ ""
      then setLastCursor (if sortType = "popularity"
          then List.insertionSort popGt (page.map toOutChannel)
          else page.map toOutChannel) nextcur
      else (if sortType = "popularity"
          then List.insertionSort popGt (page.map toOutChannel)
          else page.map toOutChannel)).length = page.length := by
  split
  · split
    · rw [setLastCursor_length, List.length_insertionSort, List.length_map]
    · rw [List.length_insertionSort, List.length_map]
  · split
    · rw [setLastCursor_length, List.length_map]
    · rw [List.length_map]

/-- Claim C5: a requested limit of zero is replaced by the default 100,
any requested limit above 999 is capped to 999 before slicing, and
consequently a returned page never holds more than 999 rows. -/
theorem channelsList_limit_cap (allChannels : List ProvChannel)
    (channelTypes : List String) (sortType cursor : String) (limit : Int) :
    normLimit 0 = 100 ∧ (999 < limit → normLimit limit = 999) ∧
    (channelsList allChannels channelTypes sortType cursor limit).1.length ≤ 999 := by
  have hcap : (normLimit limit).toNat ≤ 999 := by
    unfold normLimit
    dsimp only
    split_ifs <;> omega
  refine ⟨rfl, ?_, ?_⟩
  · intro hl
    unfold normLimit
    dsimp only
    split_ifs <;> omega
  · have hpage := paginate_fst_length_le
      (filterChannelsByTypes allChannels
        (if channelTypes = [] then ["public_channel", "private_channel"]
          else channelTypes))
      cursor (normLimit limit)
    unfold channelsList
    dsimp only
    rw [channelsRows_length]
    omega

/-- Instantiation of `channelsList_limit_cap` at the empty collection and
the over-large requested limit 5000: the default and the cap are visible
and the page bound holds. -/
theorem channelsList_limit_cap_inst :
    normLimit 0 = 100 ∧ normLimit 5000 = 999 ∧
    (channelsList [] [] "" "" 5000).1.length ≤ 999 := by
  have h := channelsList_limit_cap [] [] "" "" 5000
  exact ⟨h.1, h.2.1 (by decide), h.2.2⟩

/-- A cursor that fails base64 decoding leaves the start index at 0, so
pagination behaves exactly as with no cursor. -/
theorem paginate_undecodable (channels : List ProvChannel) (cursor : String)
    (limit : Int) (hc : b64DecodeString cursor = none) :
    paginateChannels channels cursor limit = paginateChannels channels "" limit := by
  have hne : cursor ≠ "" := by
    intro h
    rw [h] at hc
    exact absurd hc (by decide)
  unfold paginateChannels
  dsimp only
  rw [if_neg hne, hc]
  rfl

/-- Claim C6: a `List` call whose cursor fails to decode returns exactly
the same page and next cursor as a `List` call with an empty cursor, for
every collection, category set, display sort and limit — never an
error. -/
theorem channelsList_undecodable_cursor (allChannels : List ProvChannel)
    (channelTypes : List String) (sortType : String) (limit : Int)
    (cursor : String) (hc : b64DecodeString cursor = none) :
    channelsList allChannels channelTypes sortType cursor limit =
      channelsList allChannels channelTypes sortType "" limit := by
  unfold channelsList
  dsimp only
  rw [paginate_undecodable _ _ _ hc]

/-- Instantiation of `channelsList_undecodable_cursor` at the cursor
`%%%%`, which is not valid base64. -/
theorem channelsList_undecodable_cursor_inst :
    channelsList [mkChan 0, mkChan 1] ["public_channel"] "popularity" "%%%%" 100 =
      channelsList [mkChan 0, mkChan 1] ["public_channel"] "popularity" "" 100 :=
  channelsList_undecodable_cursor [mkChan 0, mkChan 1]
    ["public_channel"] "popularity" 100 "%%%%" (by decide)

/-- Claim C9: a cursor that decodes to a value at least every id in the
collection (for example a last-page cursor replayed after the items past
it were removed) leaves the start index at 0: pagination behaves as with
no cursor and, for a non-empty collection and positive limit, the
returned page is the (non-empty) first page again. -/
theorem paginate_stale_cursor (channels : List ProvChannel) (cursor : String)
    (limit : Int) (bs : List Nat)
    (hch : channels ≠ []) (hl : 1 ≤ limit)
    (hdec : b64DecodeString cursor = some bs)
    (hge : ∀ c ∈ channels, strLt (bytesStr bs) c.ID = false) :
    paginateChannels channels cursor limit = paginateChannels channels "" limit ∧
    (paginateChannels channels cursor limit).1 ≠ [] := by
  have hfind : (List.insertionSort chanIdLt channels).findIdx?
      (fun ch => strLt (bytesStr bs) ch.ID) = none := by
    rw [List.findIdx?_eq_none_iff]
    intro x hx
    simpa using hge x ((List.mem_insertionSort chanIdLt).mp hx)
  have heq : paginateChannels channels cursor limit =
      paginateChannels channels "" limit := by
    by_cases hcur : cursor = ""
    · rw [hcur]
    · unfold paginateChannels
      dsimp only
      rw [if_neg hcur, hdec]
      dsimp only
      rw [hfind]
      rfl
  have hne : (paginateChannels channels "" limit).1 ≠ [] := by
    have hlen : (paginateChannels channels "" limit).1.length ≠ 0 := by
      show (((List.insertionSort chanIdLt channels).drop 0).take
        (min ((0 : Int) + limit)
          ((List.insertionSort chanIdLt channels).length : Int) -
            (0 : Int)).toNat).length ≠ 0
      rw [List.length_take, List.length_drop, List.length_insertionSort]
      have hcl : channels.length ≠ 0 := fun h => hch (List.length_eq_zero.mp h)
      omega
    intro h
    rw [h] at hlen
    exact hlen rfl
  exact ⟨heq, by rw [heq]; exact hne⟩

/-- Instantiation of `paginate_stale_cursor` at a one-channel collection
whose only id `000` is also the decoded cursor value `MDAw`. -/
theorem paginate_stale_cursor_inst :
    paginateChannels [mkChan 0] "MDAw" 5 = paginateChannels [mkChan 0] "" 5 ∧
    (paginateChannels [mkChan 0] "MDAw" 5).1 ≠ [] :=
  paginate_stale_cursor [mkChan 0] "MDAw" 5 [48, 48, 48] (by decide) (by decide)
    (by decide) (by decide)

/-- The row post-processing applied with and without the popularity
display sort yields the same multiset of row ids. -/
theorem channelsRows_perm (page : List ProvChannel) (nextcur : String) :
    ((if (List.insertionSort popGt (page.map toOutChannel)) ≠ [] ∧ nextcur ≠ ""
       then setLastCursor (List.insertionSort popGt (page.map toOutChannel)) nextcur
       else List.insertionSort popGt (page.map toOutChannel)).map OutChannel.ID).Perm
      ((if (page.map toOutChannel) ≠ [] ∧ nextcur ≠ ""
        then setLastCursor (page.map toOutChannel) nextcur
        else page.map toOutChannel).map OutChannel.ID) := by
  have hguard : ((List.insertionSort popGt (page.map toOutChannel)) = []) ↔
      ((page.map toOutChannel) = []) := by
    simp only [← List.length_eq_zero, List.length_insertionSort]
  simp only [ne_eq, hguard]
  by_cases hc : ¬(page.map toOutChannel = []) ∧ ¬(nextcur = "")
  · rw [if_pos hc, if_pos hc, setLastCursor_map_id, setLastCursor_map_id]
    exact (List.perm_insertionSort popGt _).map _
  · rw [if_neg hc, if_neg hc]
    exact (List.perm_insertionSort popGt _).map _

/-- Claim C7: the page a `List` call returns and the next cursor it
produces contain the same resource ids whether or not the
popularity display sort is applied: the display sort permutes the
returned page only and never changes which items are returned or where
pagination resumes. -/
theorem channelsList_sort_decoupled (allChannels : List ProvChannel)
    (channelTypes : List String) (cursor : String) (limit : Int)
    (sortType : String) (hs : sortType ≠ "popularity") :
    ((channelsList allChannels channelTypes "popularity" cursor limit).1.map
        OutChannel.ID).Perm
      ((channelsList allChannels channelTypes sortType cursor limit).1.map
        OutChannel.ID) ∧
    (channelsList allChannels channelTypes "popularity" cursor limit).2 =
      (channelsList allChannels channelTypes sortType cursor limit).2 := by
  unfold channelsList
  dsimp only
  rw [if_pos (rfl : "popularity" = "popularity"), if_neg hs]
  exact ⟨channelsRows_perm _ _, rfl⟩

/-- Instantiation of `channelsList_sort_decoupled` against the empty
display sort name. -/
theorem channelsList_sort_decoupled_inst :
    ((channelsList [mkChan 0, mkChan 1] ["public_channel"] "popularity" "" 1).1.map
        OutChannel.ID).Perm
      ((channelsList [mkChan 0, mkChan 1] ["public_channel"] "" "" 1).1.map
        OutChannel.ID) ∧
    (channelsList [mkChan 0, mkChan 1] ["public_channel"] "popularity" "" 1).2 =
      (channelsList [mkChan 0, mkChan 1] ["public_channel"] "" "" 1).2 :=
  channelsList_sort_decoupled [mkChan 0, mkChan 1] ["public_channel"] "" 1 ""
    (by decide)

/-- Claim C2: over the 250-channel collection filtered to the single
`public_channel` category (150 matching channels), a `List` call with
limit 100 and no cursor returns exactly 100 rows and a non-empty next
cursor; a second call with that cursor returns the remaining 50 rows and
an empty next cursor; and the two pages' ids, in order, concatenate to
the ids of the full 150-channel filtered collection (ascending by id) —
so in particular the two calls' id sets together are exactly the filtered
set. -/
theorem channelsList_two_page_scenario :
    (channelsList coll250 ["public_channel"] "" "" 100).1.length = 100 ∧
    (channelsList coll250 ["public_channel"] "" "" 100).2 ≠ "" ∧
    (channelsList coll250 ["public_channel"] ""
      (channelsList coll250 ["public_channel"] "" "" 100).2 100).1.length = 50 ∧
    (channelsList coll250 ["public_channel"] ""
      (channelsList coll250 ["public_channel"] "" "" 100).2 100).2 = "" ∧
    (filterChannelsByTypes coll250 ["public_channel"]).length = 150 ∧
    (channelsList coll250 ["public_channel"] "" "" 100).1.map OutChannel.ID ++
      (channelsList coll250 ["public_channel"] ""
        (channelsList coll250 ["public_channel"] "" "" 100).2 100).1.map
          OutChannel.ID =
      (filterChannelsByTypes coll250 ["public_channel"]).map ProvChannel.ID := by
  decide

/-- Claim C3: when the presented bearer token validates upstream but the
stored-record lookup fails, the middleware still succeeds and attaches an
identity whose access token is the presented bearer token, whose user and
team ids are the validated ones, and whose bot token and bot user id are
empty. -/
theorem middleware_fallback_identity
    (validate : String → Except String TokenInfo)
    (getStored : String → Except String TokenResponse)
    (token : String) (info : TokenInfo) (e : String)
    (hv : validate (stripBearer token) = Except.ok info)
    (hg : getStored info.UserID = Except.error e) :
    oauthMiddlewareIdentity validate getStored (some token) =
      Except.ok ⟨info.UserID, info.TeamID, stripBearer token, "", ""⟩ := by
  unfold oauthMiddlewareIdentity
  simp [hv, hg]

/-- Instantiation of `middleware_fallback_identity`: the validator accepts,
the storage reports the record missing, and the attached identity carries
the bearer token itself (scheme stripped) and no bot token. -/
theorem middleware_fallback_identity_inst :
    oauthMiddlewareIdentity (fun _ => Except.ok ⟨"U1", "T1"⟩)
      (fun u => Except.error ("token not found for user " ++ u))
      (some "Bearer xoxp-123") =
      Except.ok ⟨"U1", "T1", "xoxp-123", "", ""⟩ :=
  middleware_fallback_identity _ _ "Bearer xoxp-123" ⟨"U1", "T1"⟩
    "token not found for user U1" rfl rfl

/-- Claim C10: when the bearer token validates and the stored record
exists, the attached identity's access token is the presented bearer
token itself — not the stored record's access-token field — and the
stored record contributes only its bot token and bot user id. -/
theorem middleware_stored_identity
    (validate : String → Except String TokenInfo)
    (getStored : String → Except String TokenResponse)
    (token : String) (info : TokenInfo) (stored : TokenResponse)
    (hv : validate (stripBearer token) = Except.ok info)
    (hg : getStored info.UserID = Except.ok stored) :
    oauthMiddlewareIdentity validate getStored (some token) =
      Except.ok ⟨info.UserID, info.TeamID, stripBearer token,
        stored.BotToken, stored.BotUserID⟩ := by
  unfold oauthMiddlewareIdentity
  simp [hv, hg]

/-- Instantiation of `middleware_stored_identity` with a stored record
whose own access token (`xoxp-stale`) differs from the presented bearer
token (`xoxp-live`): the identity carries the presented token, and only
the bot token and bot user id come from storage. -/
theorem middleware_stored_identity_inst :
    oauthMiddlewareIdentity (fun _ => Except.ok ⟨"U1", "T1"⟩)
      (fun _ => Except.ok ⟨"xoxp-stale", "xoxb-bot", "U1", "T1", "B1", 99⟩)
      (some "Bearer xoxp-live") =
      Except.ok ⟨"U1", "T1", "xoxp-live", "xoxb-bot", "B1"⟩ :=
  middleware_stored_identity _ _ "Bearer xoxp-live" ⟨"U1", "T1"⟩
    ⟨"xoxp-stale", "xoxb-bot", "U1", "T1", "B1", 99⟩ rfl rfl

/-- Claim C4: when the upstream rejects the authorization code (a
non-success upstream response), the exchange returns an error carrying
the upstream error string and the credential store is unchanged. -/
theorem exchange_upstream_reject (r : SlackOAuthResponse) (st : Storage)
    (now : Nat) (hr : r.OK = false) :
    handleCallbackExchange (Except.ok r) st now =
      (Except.error ("slack error: " ++ r.Error), st) := by
  unfold handleCallbackExchange
  simp [hr]

/-- Instantiation of `exchange_upstream_reject`: a rejected code against
the empty store yields the upstream error text and leaves the store
empty. -/
theorem exchange_upstream_reject_inst :
    handleCallbackExchange
      (Except.ok ⟨false, "invalid_code", "", "", "", "", "", ""⟩)
      (fun _ => none) 0 =
      (Except.error "slack error: invalid_code", fun _ => none) :=
  exchange_upstream_reject ⟨false, "invalid_code", "", "", "", "", "", ""⟩
    (fun _ => none) 0 rfl

/-- Claim C8: `GetAuthURL` is a pure function of the configured client id
and redirect URI and the caller's state (no network call in the
embedding), and the URL it returns is exactly the authorization endpoint
with the five query parameters in `url.Values.Encode` key order: the
client id, the redirect URI, the hard-coded bot scope set, the state and
the hard-coded user scope set, each url-encoded. -/
theorem getAuthURL_explicit (clientID redirectURI state : String) :
    getAuthURL clientID redirectURI state =
      "https://slack.com/oauth/v2/authorize?" ++
        (("client_id=" ++ queryEscape clientID) ++ "&" ++
         ("redirect_uri=" ++ queryEscape redirectURI) ++ "&" ++
         "scope=channels%3Ahistory%2Cchannels%3Aread%2Cgroups%3Ahistory%2Cgroups%3Aread%2Cim%3Ahistory%2Cim%3Aread%2Cim%3Awrite%2Cmpim%3Ahistory%2Cmpim%3Aread%2Cmpim%3Awrite%2Cusers%3Aread%2Cchat%3Awrite" ++ "&" ++
         ("state=" ++ queryEscape state) ++ "&" ++
         "user_scope=channels%3Ahistory%2Cchannels%3Aread%2Cgroups%3Ahistory%2Cgroups%3Aread%2Cim%3Ahistory%2Cim%3Aread%2Cim%3Awrite%2Cmpim%3Ahistory%2Cmpim%3Aread%2Cmpim%3Awrite%2Cusers%3Aread%2Cchat%3Awrite%2Csearch%3Aread") :=
  rfl

end SlackMCP
